import Mathlib

/-!
Shallow embedding of the crop-recommendation Flask application (`src/app.py`).

Modelling conventions:
* Python floats are modelled as rationals (`ℚ`); the handlers only store and
  compare the coerced numbers, no float arithmetic is performed by the code.
* JSON scalar values arriving in a request body are modelled by `JVal`; a
  request body (a JSON object) is an association list `ReqBody`.  A request
  whose body is not a JSON object at all is modelled as `none`.
* The SQLite database is modelled by `DB`: the two tables as lists of rows in
  insertion order together with the autoincrement counters for the primary
  keys.
* A Python exception inside a `try` block is modelled by `Except String`,
  carrying `str(e)`.  Failures of the opaque external layers (the unpickled
  classifier's `predict`, `db.session.commit`, the admin queries) are injected
  through explicit fault parameters, since those layers are not code of this
  repository.
* HTTP responses are modelled structurally by `Response` (status code plus the
  jsonify-ed body's fields).
-/

/-- A scalar JSON value as found in a request body. -/
inductive JVal where
  | null : JVal
  | bool (b : Bool) : JVal
  | num (q : ℚ) : JVal
  | str (s : String) : JVal
deriving DecidableEq, Repr

/-- A JSON-object request body: association list from field name to value. -/
abbrev ReqBody := List (String × JVal)

/-- Model of Python's `float(str)` restricted to plain decimal literals:
optional surrounding blanks, optional sign, then digits with an optional
fractional part.  Returns `none` when the string does not parse (the
`ValueError` case). -/
def pyFloatOfString (s : String) : Option ℚ :=
  let cs := ((s.toList.dropWhile (· = ' ')).reverse.dropWhile (· = ' ')).reverse
  let signed : ℚ × List Char :=
    match cs with
    | '-' :: rest => (-1, rest)
    | '+' :: rest => (1, rest)
    | _ => (1, cs)
  let intPart := signed.2.takeWhile Char.isDigit
  let rest := signed.2.dropWhile Char.isDigit
  let digitsVal : List Char → ℕ :=
    fun l => l.foldl (fun acc c => 10 * acc + (c.toNat - 48)) 0
  match rest with
  | [] =>
      if intPart.isEmpty then none
      else some (signed.1 * (digitsVal intPart : ℚ))
  | '.' :: frac =>
      if frac.all Char.isDigit && !(intPart.isEmpty && frac.isEmpty) then
        some (signed.1 *
          ((digitsVal intPart : ℚ) + (digitsVal frac : ℚ) / (10 ^ frac.length)))
      else none
  | _ => none

/-- Model of Python's `float(x)` on a JSON scalar: numbers pass through,
booleans coerce to 0/1, numeric strings parse, everything else raises
(`none`). -/
def pyFloat : JVal → Option ℚ
  | .num q => some q
  | .str s => pyFloatOfString s
  | .bool b => some (if b then 1 else 0)
  | .null => none

/-- A row of the `Farmer` table (`class Farmer(db.Model)`):
integer primary key, unique email, plaintext password. -/
structure Farmer where
  id : ℕ
  email : String
  password : String
deriving DecidableEq, Repr

/-- A row of the `CropRecommendation` table (`class CropRecommendation`):
integer primary key, free-text farmer email (not a foreign key), predicted
crop name, and the seven numeric features. -/
structure CropRecommendation where
  id : ℕ
  farmer_email : String
  crop_name : String
  N : ℚ
  P : ℚ
  K : ℚ
  Temperature : ℚ
  Humidity : ℚ
  PH : ℚ
  Rainfall : ℚ
deriving DecidableEq, Repr

/-- The SQLite database: both tables in insertion order plus the
autoincrement counters used for the integer primary keys. -/
structure DB where
  farmers : List Farmer
  nextFarmerId : ℕ
  recs : List CropRecommendation
  nextRecId : ℕ
deriving DecidableEq, Repr

/-- The freshly created database (`db.create_all()` on a new file). -/
def DB.empty : DB := ⟨[], 1, [], 1⟩

/-- `MODEL_ACCURACY = 99.32` (line 9 of `app.py`). -/
def MODEL_ACCURACY : ℚ := 99.32

/-- An entry of the `farmers` list produced by `admin_data`: only `id` and
`email` are serialized, the password column is not included. -/
structure FarmerEntry where
  id : ℕ
  email : String
deriving DecidableEq, Repr

/-- The body of a jsonify-ed response, by shape: a plain success/message
object, the recommendation success object, or the admin dump. -/
inductive RespBody where
  | msg (success : Bool) (message : String) : RespBody
  | crop (success : Bool) (recommended_crop : String) (model_accuracy : ℚ)
      (message : String) : RespBody
  | admin (success : Bool) (farmers : List FarmerEntry)
      (recommendations : List CropRecommendation) : RespBody
deriving DecidableEq, Repr

/-- An HTTP response: status code and jsonify-ed body.  Flask's default
status for a bare `jsonify(...)` return is 200. -/
structure Response where
  status : ℕ
  body : RespBody
deriving DecidableEq, Repr

/-- `Farmer.query.filter_by(email=email).first()`. -/
def findByEmail (db : DB) (email : String) : Option Farmer :=
  (db.farmers.filter (fun f => f.email == email)).head?

/-- `Farmer.query.filter_by(email=email, password=password).first()`. -/
def findByEmailPassword (db : DB) (email password : String) : Option Farmer :=
  (db.farmers.filter (fun f => f.email == email && f.password == password)).head?

/-- The `/register` handler (lines 81-93 of `app.py`): conflict when the
email is already stored, otherwise insert a new `Farmer` row and commit. -/
def register (email password : String) (db : DB) : Response × DB :=
  match findByEmail db email with
  | some _ => (⟨400, .msg false "Email already registered!"⟩, db)
  | none =>
      (⟨200, .msg true "Registration successful!"⟩,
       { db with
          farmers := db.farmers ++ [⟨db.nextFarmerId, email, password⟩],
          nextFarmerId := db.nextFarmerId + 1 })

/-- The `/login` handler (lines 95-105 of `app.py`): exact plaintext match of
email and password, greeting on success, 401 otherwise. -/
def login (email password : String) (db : DB) : Response × DB :=
  match findByEmailPassword db email password with
  | some _ => (⟨200, .msg true ("Welcome " ++ email ++ "!")⟩, db)
  | none => (⟨401, .msg false "Invalid credentials."⟩, db)

/-- Number of `Farmer` rows holding a given email. -/
def countEmail (db : DB) (email : String) : ℕ :=
  (db.farmers.filter (fun f => f.email == email)).length

/-- The opaque unpickled classifier: `model.predict(features)` on the single
feature row, returning the list of output labels or raising.  The artifact is
external to the repository, so it is an arbitrary function. -/
abbrev Predictor := List ℚ → Except String (List String)

/-- `model.predict(features)[0]`: first output label; indexing an empty
result raises. -/
def predictFirst (p : Predictor) (features : List ℚ) : Except String String :=
  match p features with
  | .error e => .error e
  | .ok [] => .error "index 0 is out of bounds for axis 0 with size 0"
  | .ok (label :: _) => .ok label

/-- `predict_crop_mock` (lines 52-63 of `app.py`): the hand-written rule
table.  It is defined in the module but never called by any route. -/
def predict_crop_mock (n pVal k temp humidity ph rainfall : ℚ) : String :=
  if n > 100 ∧ temp > 25 then "Cotton"
  else if k > 50 ∧ ph < 6 then "Rice"
  else if pVal > 50 ∧ humidity < 70 then "Wheat"
  else if temp < 20 ∧ rainfall > 200 then "Grapes"
  else "Maize"

/-- `data[key]` on the request body: the value, or a `KeyError`. -/
def getItem (body : ReqBody) (key : String) : Except String JVal :=
  match body.lookup key with
  | some v => .ok v
  | none => .error ("KeyError: " ++ key)

/-- `float(data[key])`: field lookup followed by float coercion, either of
which can raise. -/
def getFloatItem (body : ReqBody) (key : String) : Except String ℚ :=
  match getItem body key with
  | .error e => .error e
  | .ok v =>
      match pyFloat v with
      | some q => .ok q
      | none => .error ("could not convert to float: " ++ key)

/-- The string actually stored in the `farmer_email` column for a request
value.  The claims only exercise string-valued emails; non-string values pass
through the data layer rendered, without raising. -/
def jvalAsStr : JVal → String
  | .str s => s
  | .bool b => if b then "True" else "False"
  | .null => "None"
  | .num q => toString q

/-- The `try` block of the `/crop_recommendation` handler (lines 115-150):
parse the JSON body, coerce the seven feature fields, read `farmer_email`,
predict, then add-and-commit the new row and build the success response.
`commitFault` injects a failure of `db.session.commit()`; `body? = none`
models a request whose body is not a JSON object. -/
def cropRecTry (p : Predictor) (commitFault : Option String)
    (body? : Option ReqBody) (db : DB) : Except String (Response × DB) :=
  Except.bind
    (match body? with
     | some b => Except.ok b
     | none => Except.error "request body is not valid JSON") fun body =>
  Except.bind (getFloatItem body "N") fun n =>
  Except.bind (getFloatItem body "P") fun pVal =>
  Except.bind (getFloatItem body "K") fun k =>
  Except.bind (getFloatItem body "Temperature") fun temp =>
  Except.bind (getFloatItem body "Humidity") fun hum =>
  Except.bind (getFloatItem body "PH") fun ph =>
  Except.bind (getFloatItem body "Rainfall") fun rain =>
  Except.bind (getItem body "farmer_email") fun emailVal =>
  Except.bind (predictFirst p [n, pVal, k, temp, hum, ph, rain]) fun prediction =>
  match commitFault with
  | some e => Except.error e
  | none =>
      let newRec : CropRecommendation :=
        ⟨db.nextRecId, jvalAsStr emailVal, prediction, n, pVal, k, temp, hum, ph, rain⟩
      Except.ok
        (⟨200, .crop true prediction MODEL_ACCURACY "Crop recommended successfully!"⟩,
         { db with recs := db.recs ++ [newRec], nextRecId := db.nextRecId + 1 })

/-- The `/crop_recommendation` handler (lines 107-154), parameterised over the
whole module environment it closes over: the fallback function
`predict_crop_mock` (which its body never mentions) and the global `model`
(`none` when loading failed at startup).  If `model is None` it returns 503
before touching the request or the database; otherwise it runs the `try`
block, and any raised exception is caught and turned into the fixed generic
500 response, leaving the database as it was. -/
def crop_recommendation_gen
    (_fallback : ℚ → ℚ → ℚ → ℚ → ℚ → ℚ → ℚ → String)
    (model : Option Predictor) (commitFault : Option String)
    (body? : Option ReqBody) (db : DB) : Response × DB :=
  match model with
  | none => (⟨503, .msg false "ML Model is not loaded."⟩, db)
  | some p =>
      match cropRecTry p commitFault body? db with
      | .ok r => r
      | .error _ =>
          (⟨500, .msg false "Error processing request. Check input data."⟩, db)

/-- The `/crop_recommendation` handler as wired in the module: the in-scope
fallback is `predict_crop_mock`. -/
def crop_recommendation : Option Predictor → Option String →
    Option ReqBody → DB → Response × DB :=
  crop_recommendation_gen predict_crop_mock

/-- Projection serialized for each farmer by `admin_data`: id and email. -/
def farmerEntryOf (f : Farmer) : FarmerEntry := ⟨f.id, f.email⟩

/-- `CropRecommendation.query.order_by(CropRecommendation.id.desc()).all()`:
the stored rows sorted by descending id. -/
def orderByIdDesc (l : List CropRecommendation) : List CropRecommendation :=
  l.insertionSort (fun a b => b.id ≤ a.id)

/-- The `/admin_data` handler (lines 156-187): every farmer as (id, email),
every recommendation with all columns ordered by descending id.  A raised
database exception `e` (injected through `queryFault`) is caught and answered
with status 500 and message `str(e)`. -/
def admin_data (queryFault : Option String) (db : DB) : Response :=
  match queryFault with
  | some e => ⟨500, .msg false e⟩
  | none =>
      ⟨200, .admin true (db.farmers.map farmerEntryOf) (orderByIdDesc db.recs)⟩

/-- One incoming request, for stating invariants over arbitrary call
sequences.  Recommendation requests carry the startup model and the injected
faults, since those vary per deployment/request. -/
inductive Op where
  | opRegister (email password : String) : Op
  | opLogin (email password : String) : Op
  | opRecommend (model : Option Predictor) (commitFault : Option String)
      (body? : Option ReqBody) : Op
  | opAdmin (queryFault : Option String) : Op

/-- The database state after handling one request (`admin_data` never writes). -/
def applyOp (db : DB) : Op → DB
  | .opRegister e pw => (register e pw db).2
  | .opLogin e pw => (login e pw db).2
  | .opRecommend m cf b => (crop_recommendation m cf b db).2
  | .opAdmin _ => db

/-- The database state after a sequence of requests. -/
def applyOps (ops : List Op) (db : DB) : DB := ops.foldl applyOp db

/-- The uniqueness invariant on `Farmer.email` (the `unique=True` column
constraint, maintained by the handler's pre-insert check). -/
def EmailsUnique (db : DB) : Prop := (db.farmers.map Farmer.email).Nodup

instance : IsTotal CropRecommendation (fun a b => b.id ≤ a.id) :=
  ⟨fun a b => Nat.le_total b.id a.id⟩

instance : IsTrans CropRecommendation (fun a b => b.id ≤ a.id) :=
  ⟨fun _ _ _ hab hbc => le_trans hbc hab⟩

theorem findByEmail_eq_none_iff (db : DB) (e : String) :
    findByEmail db e = none ↔ ¬ ∃ f ∈ db.farmers, f.email = e := by
  simp [findByEmail, List.head?_eq_none_iff, List.filter_eq_nil_iff]

theorem findByEmailPassword_eq_none_iff (db : DB) (e pw : String) :
    findByEmailPassword db e pw = none ↔
      ¬ ∃ f ∈ db.farmers, f.email = e ∧ f.password = pw := by
  simp [findByEmailPassword, List.head?_eq_none_iff, List.filter_eq_nil_iff]

theorem register_of_exists (e pw : String) (db : DB)
    (h : ∃ f ∈ db.farmers, f.email = e) :
    register e pw db = (⟨400, .msg false "Email already registered!"⟩, db) := by
  obtain ⟨f, hf⟩ := Option.ne_none_iff_exists'.mp
    (fun hn => ((findByEmail_eq_none_iff db e).mp hn) h)
  simp [register, hf]

theorem register_of_not_exists (e pw : String) (db : DB)
    (h : ¬ ∃ f ∈ db.farmers, f.email = e) :
    register e pw db =
      (⟨200, .msg true "Registration successful!"⟩,
       { db with
          farmers := db.farmers ++ [⟨db.nextFarmerId, e, pw⟩],
          nextFarmerId := db.nextFarmerId + 1 }) := by
  simp [register, (findByEmail_eq_none_iff db e).mpr h]

theorem login_of_match (e pw : String) (db : DB)
    (h : ∃ f ∈ db.farmers, f.email = e ∧ f.password = pw) :
    login e pw db = (⟨200, .msg true ("Welcome " ++ e ++ "!")⟩, db) := by
  obtain ⟨f, hf⟩ := Option.ne_none_iff_exists'.mp
    (fun hn => ((findByEmailPassword_eq_none_iff db e pw).mp hn) h)
  simp [login, hf]

theorem login_of_no_match (e pw : String) (db : DB)
    (h : ¬ ∃ f ∈ db.farmers, f.email = e ∧ f.password = pw) :
    login e pw db = (⟨401, .msg false "Invalid credentials."⟩, db) := by
  simp [login, (findByEmailPassword_eq_none_iff db e pw).mpr h]

theorem countEmail_eq_zero_iff (db : DB) (e : String) :
    countEmail db e = 0 ↔ ¬ ∃ f ∈ db.farmers, f.email = e := by
  simp [countEmail, List.length_eq_zero, List.filter_eq_nil_iff]

/-- C3: the register handler returns the 400 conflict response and leaves the
database unchanged exactly when a farmer with the given email is already
stored; otherwise it inserts exactly one new row carrying the given email and
password and returns success; and registering the same email twice starting
from a state without it leaves exactly one row for that email. -/
theorem register_spec (e pw pw2 : String) (db : DB) :
    ((∃ f ∈ db.farmers, f.email = e) →
        register e pw db = (⟨400, .msg false "Email already registered!"⟩, db)) ∧
    ((¬ ∃ f ∈ db.farmers, f.email = e) →
        register e pw db =
          (⟨200, .msg true "Registration successful!"⟩,
           { db with
              farmers := db.farmers ++ [⟨db.nextFarmerId, e, pw⟩],
              nextFarmerId := db.nextFarmerId + 1 })) ∧
    (countEmail db e = 0 →
        countEmail (register e pw2 (register e pw db).2).2 e = 1) := by
  refine ⟨register_of_exists e pw db, register_of_not_exists e pw db, ?_⟩
  intro h0
  have hne := (countEmail_eq_zero_iff db e).mp h0
  have h1 := register_of_not_exists e pw db hne
  set db1 : DB :=
    { db with
        farmers := db.farmers ++ [⟨db.nextFarmerId, e, pw⟩],
        nextFarmerId := db.nextFarmerId + 1 } with hdb1
  have hmem : ∃ f ∈ db1.farmers, f.email = e :=
    ⟨⟨db.nextFarmerId, e, pw⟩, by simp [hdb1]⟩
  have h2 := register_of_exists e pw2 db1 hmem
  rw [h1]
  show countEmail (register e pw2 db1).2 e = 1
  rw [h2]
  show countEmail db1 e = 1
  have hfil : db.farmers.filter (fun f => f.email == e) = [] := by
    have := h0
    simpa [countEmail, List.length_eq_zero] using this
  simp [countEmail, hdb1, List.filter_append, hfil]

/-- Witness for C3 at concrete inputs: registering a fresh email on the empty
database inserts one row and succeeds, and a second registration of the same
email leaves exactly one row for it. -/
theorem register_spec_witness :
    register "a@b.c" "pw" DB.empty =
      (⟨200, .msg true "Registration successful!"⟩,
       ⟨[⟨1, "a@b.c", "pw"⟩], 2, [], 1⟩) ∧
    countEmail (register "a@b.c" "pw2" (register "a@b.c" "pw" DB.empty).2).2
        "a@b.c" = 1 := by
  refine ⟨?_, (register_spec "a@b.c" "pw" "pw2" DB.empty).2.2 (by decide)⟩
  have h := (register_spec "a@b.c" "pw" "pw2" DB.empty).2.1 (by decide)
  rw [h]; rfl

/-- C6: login succeeds with the greeting exactly when some stored farmer row
matches both email and password by exact plaintext comparison; in every other
case it returns the 401 response.  Neither branch changes the database. -/
theorem login_spec (e pw : String) (db : DB) :
    ((∃ f ∈ db.farmers, f.email = e ∧ f.password = pw) →
        login e pw db = (⟨200, .msg true ("Welcome " ++ e ++ "!")⟩, db)) ∧
    ((¬ ∃ f ∈ db.farmers, f.email = e ∧ f.password = pw) →
        login e pw db = (⟨401, .msg false "Invalid credentials."⟩, db)) :=
  ⟨login_of_match e pw db, login_of_no_match e pw db⟩

/-- Witness for C6 at concrete inputs: the stored pair logs in with the
greeting, the wrong password gets 401. -/
theorem login_spec_witness :
    login "a@b.c" "pw" ⟨[⟨1, "a@b.c", "pw"⟩], 2, [], 1⟩ =
      (⟨200, .msg true "Welcome a@b.c!"⟩, ⟨[⟨1, "a@b.c", "pw"⟩], 2, [], 1⟩) ∧
    login "a@b.c" "bad" ⟨[⟨1, "a@b.c", "pw"⟩], 2, [], 1⟩ =
      (⟨401, .msg false "Invalid credentials."⟩, ⟨[⟨1, "a@b.c", "pw"⟩], 2, [], 1⟩) :=
  ⟨(login_spec "a@b.c" "pw" ⟨[⟨1, "a@b.c", "pw"⟩], 2, [], 1⟩).1 (by decide),
   (login_spec "a@b.c" "bad" ⟨[⟨1, "a@b.c", "pw"⟩], 2, [], 1⟩).2 (by decide)⟩

theorem except_bind_ok {ε α β : Type} (x : Except ε α) (f : α → Except ε β)
    (r : β) (h : Except.bind x f = Except.ok r) :
    ∃ a, x = Except.ok a ∧ f a = Except.ok r := by
  cases x with
  | error e => simp [Except.bind] at h
  | ok a => exact ⟨a, rfl, by simpa [Except.bind] using h⟩

/-- A successful run of the `try` block keeps the farmer table intact and
appends exactly one recommendation row. -/
theorem cropRecTry_ok (p : Predictor) (cf : Option String) (body? : Option ReqBody)
    (db : DB) (r : Response × DB) (h : cropRecTry p cf body? db = Except.ok r) :
    r.2.farmers = db.farmers ∧ r.2.nextFarmerId = db.nextFarmerId ∧
    ∃ rec : CropRecommendation,
      r.2.recs = db.recs ++ [rec] ∧ r.2.nextRecId = db.nextRecId + 1 := by
  unfold cropRecTry at h
  obtain ⟨body, _, h⟩ := except_bind_ok _ _ _ h
  obtain ⟨n, _, h⟩ := except_bind_ok _ _ _ h
  obtain ⟨pVal, _, h⟩ := except_bind_ok _ _ _ h
  obtain ⟨k, _, h⟩ := except_bind_ok _ _ _ h
  obtain ⟨temp, _, h⟩ := except_bind_ok _ _ _ h
  obtain ⟨hum, _, h⟩ := except_bind_ok _ _ _ h
  obtain ⟨ph, _, h⟩ := except_bind_ok _ _ _ h
  obtain ⟨rain, _, h⟩ := except_bind_ok _ _ _ h
  obtain ⟨emailVal, _, h⟩ := except_bind_ok _ _ _ h
  obtain ⟨prediction, _, h⟩ := except_bind_ok _ _ _ h
  cases cf with
  | some e => simp at h
  | none =>
      obtain rfl : _ = r := Except.ok.inj h
      exact ⟨rfl, rfl, _, rfl, rfl⟩

/-- The recommendation handler never touches the farmer table. -/
theorem crop_recommendation_farmers (m : Option Predictor) (cf : Option String)
    (b : Option ReqBody) (db : DB) :
    (crop_recommendation m cf b db).2.farmers = db.farmers := by
  cases m with
  | none => rfl
  | some p =>
      show (crop_recommendation_gen predict_crop_mock (some p) cf b db).2.farmers = _
      cases htry : cropRecTry p cf b db with
      | error e => simp [crop_recommendation_gen, htry]
      | ok r =>
          have hred : crop_recommendation_gen predict_crop_mock (some p) cf b db = r := by
            simp [crop_recommendation_gen, htry]
          rw [hred]
          exact (cropRecTry_ok p cf b db r htry).1

/-- C1: with the model loaded, a request whose seven fields coerce to floats
and which carries a farmer email is answered with the success response
holding the predicted label and the fixed accuracy 99.32, and the database
gains exactly one recommendation row storing the coerced inputs and that
email. -/
theorem crop_recommendation_success (p : Predictor) (body : ReqBody) (db : DB)
    (n pVal k temp hum ph rain : ℚ) (email label : String)
    (hN : getFloatItem body "N" = .ok n)
    (hP : getFloatItem body "P" = .ok pVal)
    (hK : getFloatItem body "K" = .ok k)
    (hT : getFloatItem body "Temperature" = .ok temp)
    (hH : getFloatItem body "Humidity" = .ok hum)
    (hPh : getFloatItem body "PH" = .ok ph)
    (hR : getFloatItem body "Rainfall" = .ok rain)
    (hE : getItem body "farmer_email" = .ok (.str email))
    (hPred : predictFirst p [n, pVal, k, temp, hum, ph, rain] = .ok label) :
    crop_recommendation (some p) none (some body) db =
      (⟨200, .crop true label 99.32 "Crop recommended successfully!"⟩,
       { db with
          recs := db.recs ++
            [⟨db.nextRecId, email, label, n, pVal, k, temp, hum, ph, rain⟩],
          nextRecId := db.nextRecId + 1 }) ∧
    (crop_recommendation (some p) none (some body) db).2.recs.length =
      db.recs.length + 1 := by
  have htry : cropRecTry p none (some body) db =
      Except.ok
        (⟨200, .crop true label 99.32 "Crop recommended successfully!"⟩,
         { db with
            recs := db.recs ++
              [⟨db.nextRecId, email, label, n, pVal, k, temp, hum, ph, rain⟩],
            nextRecId := db.nextRecId + 1 }) := by
    simp [cropRecTry, Except.bind, hN, hP, hK, hT, hH, hPh, hR, hE, hPred,
      jvalAsStr, MODEL_ACCURACY]
  have hmain :
      crop_recommendation (some p) none (some body) db =
        (⟨200, .crop true label 99.32 "Crop recommended successfully!"⟩,
         { db with
            recs := db.recs ++
              [⟨db.nextRecId, email, label, n, pVal, k, temp, hum, ph, rain⟩],
            nextRecId := db.nextRecId + 1 }) := by
    show crop_recommendation_gen predict_crop_mock (some p) none (some body) db = _
    simp only [crop_recommendation_gen, htry]
  refine ⟨hmain, ?_⟩
  rw [hmain]
  simp

/-- Witness for C1: a concrete request on the empty database inserts the one
row and returns the label with accuracy 99.32. -/
theorem crop_recommendation_success_witness :
    crop_recommendation (some (fun _ => Except.ok ["Rice"])) none
      (some [("N", .num 120), ("P", .num 10), ("K", .num 10),
             ("Temperature", .num 30), ("Humidity", .num 50), ("PH", .num 5),
             ("Rainfall", .num 100), ("farmer_email", .str "a@b.c")])
      DB.empty =
      (⟨200, .crop true "Rice" 99.32 "Crop recommended successfully!"⟩,
       ⟨[], 1, [⟨1, "a@b.c", "Rice", 120, 10, 10, 30, 50, 5, 100⟩], 2⟩) :=
  (crop_recommendation_success (fun _ => Except.ok ["Rice"])
    [("N", .num 120), ("P", .num 10), ("K", .num 10),
     ("Temperature", .num 30), ("Humidity", .num 50), ("PH", .num 5),
     ("Rainfall", .num 100), ("farmer_email", .str "a@b.c")]
    DB.empty 120 10 10 30 50 5 100 "a@b.c" "Rice"
    rfl rfl rfl rfl rfl rfl rfl rfl rfl).1

/-- C2: when the model failed to load at startup the handler answers 503
with the not-loaded message and returns the database exactly as it was, for
every request body and every injected commit fault. -/
theorem crop_recommendation_no_model (commitFault : Option String)
    (body? : Option ReqBody) (db : DB) :
    crop_recommendation none commitFault body? db =
      (⟨503, .msg false "ML Model is not loaded."⟩, db) := rfl

/-- C4: with the model loaded, whenever the `try` block raises (a field fails
float coercion, a field is missing, prediction raises, or the commit raises)
the handler answers with the generic 500 response and the database is
unchanged. -/
theorem crop_recommendation_error (p : Predictor) (commitFault : Option String)
    (body? : Option ReqBody) (db : DB) (e : String)
    (h : cropRecTry p commitFault body? db = .error e) :
    crop_recommendation (some p) commitFault body? db =
      (⟨500, .msg false "Error processing request. Check input data."⟩, db) := by
  show crop_recommendation_gen predict_crop_mock (some p) commitFault body? db = _
  simp only [crop_recommendation_gen, h]

/-- Witness for C4 at the spec's own example: N set to the string abc fails
float coercion, the handler answers 500 and creates no row. -/
theorem crop_recommendation_error_witness :
    crop_recommendation (some (fun _ => Except.ok ["Rice"])) none
      (some [("N", .str "abc"), ("P", .num 10), ("K", .num 10),
             ("Temperature", .num 30), ("Humidity", .num 50), ("PH", .num 5),
             ("Rainfall", .num 100), ("farmer_email", .str "a@b.c")])
      DB.empty =
      (⟨500, .msg false "Error processing request. Check input data."⟩,
       DB.empty) :=
  crop_recommendation_error (fun _ => Except.ok ["Rice"]) none
    (some [("N", .str "abc"), ("P", .num 10), ("K", .num 10),
           ("Temperature", .num 30), ("Humidity", .num 50), ("PH", .num 5),
           ("Rainfall", .num 100), ("farmer_email", .str "a@b.c")])
    DB.empty "could not convert to float: N" rfl

/-- C8: the rule-based fallback is dead code on the recommendation path: the
handler's result is the same whatever function sits in the fallback slot of
its environment, the wired handler is exactly the generic one applied to
`predict_crop_mock`, and with no model it answers 503 instead of falling
back. -/
theorem fallback_never_used
    (f g : ℚ → ℚ → ℚ → ℚ → ℚ → ℚ → ℚ → String) (model : Option Predictor)
    (commitFault : Option String) (body? : Option ReqBody) (db : DB) :
    crop_recommendation_gen f model commitFault body? db =
      crop_recommendation_gen g model commitFault body? db ∧
    crop_recommendation = crop_recommendation_gen predict_crop_mock ∧
    crop_recommendation_gen f none commitFault body? db =
      (⟨503, .msg false "ML Model is not loaded."⟩, db) :=
  ⟨rfl, rfl, rfl⟩

/-- C9 as claimed is false: admin_data's caught 500 surfaces str(e), the
exception's own text, so its body is neither fixed nor free of internal
detail.  Two different internal failures produce two different bodies, one
of which is the exception text itself. -/
theorem admin_data_message_leaks :
    admin_data (some "OperationalError: no such table: farmer") DB.empty =
      ⟨500, .msg false "OperationalError: no such table: farmer"⟩ ∧
    admin_data (some "OperationalError: no such table: farmer") DB.empty ≠
      admin_data (some "disk I/O error") DB.empty :=
  ⟨rfl, by decide⟩

/-- C9 amended: a failure caught in crop_recommendation is answered with the
fixed generic message revealing nothing of the exception, while a failure
caught in admin_data is answered with status 500 and message str(e). -/
theorem caught_error_responses (p : Predictor) (cf : Option String)
    (b : Option ReqBody) (db : DB) (e eAdmin : String)
    (h : cropRecTry p cf b db = .error e) :
    crop_recommendation (some p) cf b db =
      (⟨500, .msg false "Error processing request. Check input data."⟩, db) ∧
    admin_data (some eAdmin) db = ⟨500, .msg false eAdmin⟩ := by
  constructor
  · show crop_recommendation_gen predict_crop_mock (some p) cf b db = _
    simp only [crop_recommendation_gen, h]
  · rfl

/-- Witness for the amended C9: a request missing the farmer_email field
raises a KeyError, answered generically, while an injected admin query error
comes back verbatim. -/
theorem caught_error_responses_witness :
    crop_recommendation (some (fun _ => Except.ok ["Rice"])) none
      (some [("N", .num 120), ("P", .num 10), ("K", .num 10),
             ("Temperature", .num 30), ("Humidity", .num 50), ("PH", .num 5),
             ("Rainfall", .num 100)])
      DB.empty =
      (⟨500, .msg false "Error processing request. Check input data."⟩,
       DB.empty) ∧
    admin_data (some "no such table: farmer") DB.empty =
      ⟨500, .msg false "no such table: farmer"⟩ :=
  caught_error_responses (fun _ => Except.ok ["Rice"]) none
    (some [("N", .num 120), ("P", .num 10), ("K", .num 10),
           ("Temperature", .num 30), ("Humidity", .num 50), ("PH", .num 5),
           ("Rainfall", .num 100)])
    DB.empty "KeyError: farmer_email" "no such table: farmer" rfl

theorem orderByIdDesc_perm (l : List CropRecommendation) :
    (orderByIdDesc l).Perm l :=
  List.perm_insertionSort _ l

theorem orderByIdDesc_length (l : List CropRecommendation) :
    (orderByIdDesc l).length = l.length :=
  (orderByIdDesc_perm l).length_eq

theorem orderByIdDesc_sorted (l : List CropRecommendation) :
    List.Pairwise (fun a b => b.id ≤ a.id) (orderByIdDesc l) :=
  List.sorted_insertionSort _ l

/-- On a table whose primary keys are distinct, ordering by descending id is
strictly descending. -/
theorem orderByIdDesc_strict (l : List CropRecommendation)
    (h : (l.map CropRecommendation.id).Nodup) :
    List.Pairwise (fun a b => b.id < a.id) (orderByIdDesc l) := by
  have hnd : ((orderByIdDesc l).map CropRecommendation.id).Nodup :=
    ((orderByIdDesc_perm l).map CropRecommendation.id).symm.nodup h
  have hne : List.Pairwise (fun a b : CropRecommendation => a.id ≠ b.id)
      (orderByIdDesc l) := List.pairwise_map.mp hnd
  exact ((orderByIdDesc_sorted l).and hne).imp
    (fun hab => lt_of_le_of_ne hab.1 (Ne.symm hab.2))

/-- C5: on any database state whose recommendation ids are distinct (the
primary-key property), the admin dump succeeds with exactly one (id, email)
entry per farmer row in table order, and with all recommendation rows exactly
once, listed in strictly descending id order. -/
theorem admin_data_spec (db : DB)
    (h : (db.recs.map CropRecommendation.id).Nodup) :
    admin_data none db =
      ⟨200, .admin true (db.farmers.map farmerEntryOf) (orderByIdDesc db.recs)⟩ ∧
    (db.farmers.map farmerEntryOf).length = db.farmers.length ∧
    (orderByIdDesc db.recs).length = db.recs.length ∧
    (orderByIdDesc db.recs).Perm db.recs ∧
    List.Pairwise (fun a b => b.id < a.id) (orderByIdDesc db.recs) :=
  ⟨rfl, db.farmers.length_map farmerEntryOf, orderByIdDesc_length db.recs,
   orderByIdDesc_perm db.recs, orderByIdDesc_strict db.recs h⟩

/-- Witness for C5: a database with one farmer and two recommendations is
dumped with the one farmer entry and both rows, newest first. -/
theorem admin_data_spec_witness :
    admin_data none
      ⟨[⟨1, "a@b.c", "pw"⟩], 2,
       [⟨1, "a@b.c", "Rice", 120, 10, 10, 30, 50, 5, 100⟩,
        ⟨2, "a@b.c", "Maize", 1, 2, 3, 4, 5, 6, 7⟩], 3⟩ =
      ⟨200, .admin true [⟨1, "a@b.c"⟩]
        (orderByIdDesc
          [⟨1, "a@b.c", "Rice", 120, 10, 10, 30, 50, 5, 100⟩,
           ⟨2, "a@b.c", "Maize", 1, 2, 3, 4, 5, 6, 7⟩])⟩ ∧
    (orderByIdDesc
        [⟨1, "a@b.c", "Rice", 120, 10, 10, 30, 50, 5, 100⟩,
         ⟨2, "a@b.c", "Maize", 1, 2, 3, 4, 5, 6, 7⟩]).length = 2 ∧
    List.Pairwise (fun a b => b.id < a.id)
      (orderByIdDesc
        [⟨1, "a@b.c", "Rice", 120, 10, 10, 30, 50, 5, 100⟩,
         ⟨2, "a@b.c", "Maize", 1, 2, 3, 4, 5, 6, 7⟩]) := by
  have h := admin_data_spec
    ⟨[⟨1, "a@b.c", "pw"⟩], 2,
     [⟨1, "a@b.c", "Rice", 120, 10, 10, 30, 50, 5, 100⟩,
      ⟨2, "a@b.c", "Maize", 1, 2, 3, 4, 5, 6, 7⟩], 3⟩ (by decide)
  exact ⟨h.1, h.2.2.1, h.2.2.2.2⟩

/-- Login never changes the database, whichever branch is taken. -/
theorem login_db_unchanged (e pw : String) (db : DB) :
    (login e pw db).2 = db := by
  unfold login
  cases findByEmailPassword db e pw <;> rfl

/-- Register keeps farmer emails unique. -/
theorem register_preserves_unique (e pw : String) (db : DB)
    (h : EmailsUnique db) : EmailsUnique (register e pw db).2 := by
  by_cases hex : ∃ f ∈ db.farmers, f.email = e
  · rw [register_of_exists e pw db hex]
    exact h
  · rw [register_of_not_exists e pw db hex]
    show ((db.farmers ++ [(⟨db.nextFarmerId, e, pw⟩ : Farmer)]).map Farmer.email).Nodup
    rw [List.map_append]
    rw [List.nodup_append]
    refine ⟨h, List.nodup_singleton e, ?_⟩
    intro a ha hb
    rcases List.mem_map.mp ha with ⟨f, hf, rfl⟩
    rcases List.mem_singleton.mp hb with rfl
    exact hex ⟨f, hf, rfl⟩

/-- Every single request preserves the uniqueness of farmer emails. -/
theorem applyOp_preserves_unique (db : DB) (op : Op) (h : EmailsUnique db) :
    EmailsUnique (applyOp db op) := by
  cases op with
  | opRegister e pw => exact register_preserves_unique e pw db h
  | opLogin e pw =>
      show EmailsUnique (login e pw db).2
      rw [login_db_unchanged]
      exact h
  | opRecommend m cf b =>
      show EmailsUnique (crop_recommendation m cf b db).2
      unfold EmailsUnique
      rw [crop_recommendation_farmers]
      exact h
  | opAdmin _ => exact h

/-- C7: starting from any state with pairwise distinct farmer emails, any
sequence of register, login, recommendation and admin requests again yields
pairwise distinct farmer emails; and no dual invariant ties a stored
recommendation's farmer_email to an existing farmer: a reachable state holds
a recommendation row whose farmer_email matches no farmer row. -/
theorem email_uniqueness_invariant :
    (∀ (ops : List Op) (db : DB), EmailsUnique db → EmailsUnique (applyOps ops db)) ∧
    (∃ ops : List Op, ∃ r ∈ (applyOps ops DB.empty).recs,
        ∀ f ∈ (applyOps ops DB.empty).farmers, f.email ≠ r.farmer_email) := by
  constructor
  · intro ops
    induction ops with
    | nil => exact fun db h => h
    | cons op rest ih => exact fun db h => ih _ (applyOp_preserves_unique db op h)
  · refine ⟨[Op.opRecommend (some (fun _ => Except.ok ["Cotton"])) none
      (some [("N", .num 1), ("P", .num 2), ("K", .num 3), ("Temperature", .num 4),
             ("Humidity", .num 5), ("PH", .num 6), ("Rainfall", .num 7),
             ("farmer_email", .str "ghost@nowhere")])], ?_⟩
    have hstate : applyOps [Op.opRecommend (some (fun _ => Except.ok ["Cotton"])) none
        (some [("N", .num 1), ("P", .num 2), ("K", .num 3), ("Temperature", .num 4),
               ("Humidity", .num 5), ("PH", .num 6), ("Rainfall", .num 7),
               ("farmer_email", .str "ghost@nowhere")])] DB.empty =
        ⟨[], 1, [⟨1, "ghost@nowhere", "Cotton", 1, 2, 3, 4, 5, 6, 7⟩], 2⟩ := rfl
    rw [hstate]
    exact ⟨⟨1, "ghost@nowhere", "Cotton", 1, 2, 3, 4, 5, 6, 7⟩,
      List.mem_singleton.mpr rfl, fun f hf => absurd hf (List.not_mem_nil f)⟩

/-- Witness for C7: the uniqueness invariant evaluated across a concrete
double-registration sequence from the empty database. -/
theorem email_uniqueness_invariant_witness :
    EmailsUnique
      (applyOps [Op.opRegister "a@b.c" "pw", Op.opRegister "a@b.c" "pw2"]
        DB.empty) :=
  email_uniqueness_invariant.1
    [Op.opRegister "a@b.c" "pw", Op.opRegister "a@b.c" "pw2"] DB.empty
    (by simp [EmailsUnique, DB.empty])

/-- C10: any two login requests that both fail to match a stored farmer row
receive the identical response, status 401 with message Invalid credentials.,
so the caller cannot tell a wrong password from an unknown email. -/
theorem login_failure_uniform (e1 p1 e2 p2 : String) (db1 db2 : DB)
    (h1 : ¬ ∃ f ∈ db1.farmers, f.email = e1 ∧ f.password = p1)
    (h2 : ¬ ∃ f ∈ db2.farmers, f.email = e2 ∧ f.password = p2) :
    (login e1 p1 db1).1 = (login e2 p2 db2).1 ∧
    (login e1 p1 db1).1 = ⟨401, .msg false "Invalid credentials."⟩ := by
  rw [login_of_no_match e1 p1 db1 h1, login_of_no_match e2 p2 db2 h2]
  exact ⟨rfl, rfl⟩

/-- Witness for C10: a wrong-password failure and an unknown-email failure
produce the same 401 response. -/
theorem login_failure_uniform_witness :
    (login "a@b.c" "bad" ⟨[⟨1, "a@b.c", "pw"⟩], 2, [], 1⟩).1 =
      (login "ghost@x" "pw" ⟨[⟨1, "a@b.c", "pw"⟩], 2, [], 1⟩).1 ∧
    (login "a@b.c" "bad" ⟨[⟨1, "a@b.c", "pw"⟩], 2, [], 1⟩).1 =
      ⟨401, .msg false "Invalid credentials."⟩ :=
  login_failure_uniform "a@b.c" "bad" "ghost@x" "pw"
    ⟨[⟨1, "a@b.c", "pw"⟩], 2, [], 1⟩ ⟨[⟨1, "a@b.c", "pw"⟩], 2, [], 1⟩
    (by decide) (by decide)
theorem pyFloatOfString_eval_digits : pyFloatOfString "120" = some 120 := by
  have h : pyFloatOfString "120" = some ((1 : ℚ) * ((120 : ℕ) : ℚ)) := rfl
  rw [h]; norm_num

theorem pyFloatOfString_eval_nonnumeric : pyFloatOfString "abc" = none := rfl

theorem pyFloatOfString_eval_signed : pyFloatOfString "-3.25" = some (-13/4) := by
  have h : pyFloatOfString "-3.25" = some (-1 * ((3 : ℚ) + 25 / 100)) := rfl
  rw [h]; norm_num
